import Mathlib

/-!
Verification of the burn-hotspot monitoring pipeline (GS-2025-RPA).

Shallow embedding of the aggregation, alerting, report and cleaning core:

* `monitoramento-queimadas/analise/utils_analise.py` — `calcular_media_movel`
* `src/analise/analise_temporal.py` — `gerar_serie_temporal`
* `monitoramento_queimadas/analise/analise_temporal.py` — `analisar_serie_temporal`
* `monitoramento_queimadas/analise/analise_espacial.py` — `analisar_por_uf`,
  `analisar_por_bioma`
* `src/alertas/alertas.py` — `detectar_anomalias`, `gerar_alerta_por_regiao`
* `monitoramento-queimadas/alertas/alertas.py` — `carregar_config`,
  `verificar_alertas`
* `monitoramento-queimadas/relatorios/relatorio.py` — the trend computation of
  `gerar_relatorio_html`
* `monitoramento_queimadas/tratamento/utils_tratamento.py` — `preencher_nulos`

Machine floats are modelled by `ℚ`; a pandas `NaN` entry is modelled by `none`
in an `Option ℚ` column.  Timestamps are modelled by `Nat` day numbers (the
pipeline groups by calendar day before anything numeric happens, so only the
order and equality of days matter).
-/

namespace Queimadas

/-- One hotspot observation (one row of the cleaned dataframe): day number,
state code and biome.  Only the columns the aggregation/alerting core reads
are modelled. -/
structure Obs where
  data : Nat
  uf : String
  bioma : String
deriving DecidableEq

/-! ### pandas rolling primitives -/

/-- The pandas rolling window ending at index `i` with window size `w`:
the last `min (i+1) w` elements of `xs.take (i+1)`.  `i+1-w` is truncated
subtraction, i.e. Python's `max(0, i-w+1)`. -/
def windowAt (w : Nat) (xs : List ℚ) (i : Nat) : List ℚ :=
  (xs.take (i + 1)).drop (i + 1 - w)

/-- Arithmetic mean of a list (0 on the empty list, where pandas gives NaN;
all uses below are guarded by nonemptiness). -/
def listMean (l : List ℚ) : ℚ := l.sum / l.length

/-- Models `serie.rolling(window=w, min_periods=minp).mean()`.  `none` models the
NaN produced where fewer than `minp` periods are available. -/
def rolling_mean (w minp : Nat) (xs : List ℚ) : List (Option ℚ) :=
  (List.range xs.length).map (fun i =>
    let win := windowAt w xs i
    if minp ≤ win.length then some (listMean win) else none)

/-- Sample variance with `ddof=1` (the pandas default): `Σ (x - mean)² / (n-1)`. -/
def sampleVar (l : List ℚ) : ℚ :=
  (l.map (fun x => (x - listMean l) ^ 2)).sum / ((l.length : ℚ) - 1)

/-- The square of `serie.rolling(window=w, min_periods=minp).std()`: the
sample variance of each window.  pandas `std` (ddof=1) is NaN on windows with
fewer than 2 values even when `min_periods=1`, hence the `2 ≤` guard.  The
square root itself is kept out of the executable embedding; the comparison
`x > m + k·std` is carried out on squares (justified by
`sqrt_threshold_iff` below). -/
def rolling_var (w minp : Nat) (xs : List ℚ) : List (Option ℚ) :=
  (List.range xs.length).map (fun i =>
    let win := windowAt w xs i
    if minp ≤ win.length ∧ 2 ≤ win.length then some (sampleVar win) else none)

/-! ### Temporal aggregation -/

/-- One row of `df.groupby('data').size().reset_index(name='focos')`. -/
structure SRow where
  data : Nat
  focos : Nat
deriving DecidableEq

/-- Models `df.groupby('data').size()`: one row per distinct day present, keys sorted
ascending (pandas `groupby` sorts its keys), count = number of observations
on that day. -/
def serie_por_data (df : List Obs) : List SRow :=
  (List.insertionSort (· ≤ ·) (df.map (·.data)).dedup).map
    (fun d => ⟨d, df.countP (fun o => o.data == d)⟩)

/-- Source `calcular_media_movel` (`monitoramento-queimadas/analise/utils_analise.py`):
clamps a non-positive window to 1, then
`serie.rolling(window=janela, min_periods=1).mean()`. -/
def calcular_media_movel (serie : List ℚ) (janela : Int) : List (Option ℚ) :=
  rolling_mean (if janela ≤ 0 then 1 else janela.toNat) 1 serie

/-- Spec-side definition, written from the claim's words: the arithmetic mean
of `counts[max(0,i-w+1) : i+1]` (Python slice semantics: `i+1-w` truncates at
zero). -/
def mediaJanelaSpec (w : Nat) (xs : List ℚ) (i : Nat) : ℚ :=
  let slice := (xs.take (i + 1)).drop (i + 1 - w)
  slice.sum / slice.length

/-- One row of the series produced by `gerar_serie_temporal`
(`src/analise/analise_temporal.py`). -/
structure GRow where
  data : Nat
  focos : Nat
  media_movel : Option ℚ
deriving DecidableEq

/-- Source `gerar_serie_temporal` (`src/analise/analise_temporal.py`):
`serie['media_movel'] = serie['focos'].rolling(window=7).mean()` — note that
`min_periods` is NOT given, so it defaults to the window size 7 and the first
six entries are NaN (`none`). -/
def gerar_serie_temporal (df : List Obs) : List GRow :=
  let s := serie_por_data df
  let medias := rolling_mean 7 7 (s.map (fun r => (r.focos : ℚ)))
  (List.range s.length).map (fun i =>
    ⟨(s.getD i ⟨0, 0⟩).data, (s.getD i ⟨0, 0⟩).focos, medias.getD i none⟩)

/-- One row of the series produced by `analisar_serie_temporal`
(`monitoramento_queimadas/analise/analise_temporal.py`): period, count,
rolling mean, peak flag and percent-of-maximum. -/
structure PRow where
  periodo : Nat
  focos : Nat
  media_movel : Option ℚ
  pico : Bool
  percentual_max : ℚ
deriving DecidableEq

/-- The counts of the per-day series, as rationals (the `serie_temporal['focos']`
column fed to the rolling mean and the global statistics). -/
def focos_serie (df : List Obs) : List ℚ :=
  (serie_por_data df).map (fun r => (r.focos : ℚ))

/-- The peak flag of `analisar_serie_temporal`:
`focos > media + 2 * desvio_padrao` with the global sample mean/std of the
whole series; written on squares (see `sqrt_threshold_iff`), `False` when the
std is NaN (fewer than 2 rows). -/
def pico_em (df : List Obs) (f : ℚ) : Bool :=
  decide (2 ≤ (serie_por_data df).length ∧ listMean (focos_serie df) < f ∧
    (2 : ℚ) ^ 2 * sampleVar (focos_serie df) < (f - listMean (focos_serie df)) ^ 2)

/-- Models `estatisticas['maximo']`: the maximum daily count. -/
def maximo_focos (df : List Obs) : ℚ :=
  (((serie_por_data df).map (·.focos)).foldl Nat.max 0 : ℕ)

/-- Source `analisar_serie_temporal` (`monitoramento_queimadas/analise/analise_temporal.py`),
day granularity (the default '`dia`' path; the other granularities only remap
the day key before the same group-by).  Returns `none` — Python `None` — when
the input is empty.  One row per day: count, rolling mean
(`calcular_media_movel`), peak flag (`pico_em`) and percent-of-maximum. -/
def analisar_serie_temporal (df : List Obs) (janela : Int) : Option (List PRow) :=
  if df.isEmpty then none else
  some ((List.range (serie_por_data df).length).map (fun i =>
    { periodo := ((serie_por_data df).getD i ⟨0, 0⟩).data
      focos := ((serie_por_data df).getD i ⟨0, 0⟩).focos
      media_movel := (calcular_media_movel (focos_serie df) janela).getD i none
      pico := pico_em df (((serie_por_data df).getD i ⟨0, 0⟩).focos : ℚ)
      percentual_max := (((serie_por_data df).getD i ⟨0, 0⟩).focos : ℚ) / maximo_focos df * 100 }))

/-! ### Spatial aggregation -/

/-- One row of `df.groupby(key).size().reset_index(name='focos')`. -/
structure CRow where
  chave : String
  focos : Nat
deriving DecidableEq

/-- One row of the final regional table: key, count and percentage. -/
structure RRow where
  chave : String
  focos : Nat
  percentual : ℚ
deriving DecidableEq

/-- The order used to model `sort_values('focos', ascending=False)`:
`ordemContagem a b` says row `a` precedes row `b` — larger count first,
equal counts in key-ascending order.  pandas `nargsort` with
`ascending=False` reverses the array BEFORE the ascending argsort and the
indexer after (the fix for pandas GH #6399), which makes the descending sort
STABLE: tied counts keep their original order.  On the group-by output the
keys are strictly ascending, so the stable descending-by-count order is
exactly this lexicographic (count descending, key ascending) comparison. -/
def ordemContagem (a b : CRow) : Prop :=
  b.focos < a.focos ∨ (a.focos = b.focos ∧ a.chave ≤ b.chave)

instance : DecidableRel ordemContagem := fun a b => by
  unfold ordemContagem; infer_instance

instance : IsTotal CRow ordemContagem where
  total a b := by
    rcases Nat.lt_trichotomy a.focos b.focos with h | h | h
    · exact Or.inr (Or.inl h)
    · rcases le_total a.chave b.chave with hc | hc
      · exact Or.inl (Or.inr ⟨h, hc⟩)
      · exact Or.inr (Or.inr ⟨h.symm, hc⟩)
    · exact Or.inl (Or.inl h)

instance : IsTrans CRow ordemContagem where
  trans a b c hab hbc := by
    rcases hab with h1 | ⟨h1, h1c⟩ <;> rcases hbc with h2 | ⟨h2, h2c⟩
    · exact Or.inl (h2.trans h1)
    · exact Or.inl (h2 ▸ h1)
    · exact Or.inl (h1 ▸ h2)
    · exact Or.inr ⟨h1.trans h2, h1c.trans h2c⟩

/-- Models `df.groupby(key).size().reset_index(name='focos')` over the list of key
values: one row per distinct key, keys ascending, count of occurrences. -/
def agrupar_contar (chaves : List String) : List CRow :=
  (List.insertionSort (· ≤ ·) chaves.dedup).map
    (fun k => ⟨k, chaves.countP (· == k)⟩)

/-- Models `sort_values('focos', ascending=False)` applied to the group-by
output: a stable descending sort (pandas `nargsort` reverses the array
before the ascending argsort and the indexer after, GH #6399), which on the
key-ascending group-by rows is the sort by `ordemContagem` — count
descending, ties key-ascending. -/
def tabela_ordenada (chaves : List String) : List CRow :=
  List.insertionSort ordemContagem (agrupar_contar chaves)

/-- Models `total_focos = focos_por_uf['focos'].sum()`: the sum of the counts of the
(already sorted) table. -/
def total_focos (chaves : List String) : ℚ :=
  (((tabela_ordenada chaves).map (·.focos)).sum : ℕ)

/-- Common body of `analisar_por_uf` and `analisar_por_bioma`
(`monitoramento_queimadas/analise/analise_espacial.py`) — the two source
functions are line-for-line duplicates over different columns.  Empty input
returns `None`.  Group by the key, sort by count descending, then attach
`percentual = focos / total_focos * 100`. -/
def analisar_por_chave (chaves : List String) : Option (List RRow) :=
  if chaves.isEmpty then none else
  some ((tabela_ordenada chaves).map (fun r =>
    ⟨r.chave, r.focos, (r.focos : ℚ) / total_focos chaves * 100⟩))

/-- Source `analisar_por_uf`: group the observations by state code. -/
def analisar_por_uf (df : List Obs) : Option (List RRow) :=
  analisar_por_chave (df.map (·.uf))

/-- Source `analisar_por_bioma`: group the observations by biome. -/
def analisar_por_bioma (df : List Obs) : Option (List RRow) :=
  analisar_por_chave (df.map (·.bioma))

/-! ### Regional anomaly alerts (`src/alertas/alertas.py`) -/

/-- One row of the series built inside `detectar_anomalias`: day, count,
rolling mean (`min_periods=1`) and the SQUARE of the rolling std
(`desvio2 = desvio_padrao²`, `none` = NaN). -/
structure ARow where
  data : Nat
  focos : Nat
  media_movel : Option ℚ
  desvio2 : Option ℚ
deriving DecidableEq

/-- The per-day series with rolling metrics computed by `detectar_anomalias`:
group by day, `rolling(window=7, min_periods=1).mean()` and `.std()`. -/
def serie_com_metricas (df : List Obs) : List ARow :=
  (List.range (serie_por_data df).length).map (fun i =>
    { data := ((serie_por_data df).getD i ⟨0, 0⟩).data
      focos := ((serie_por_data df).getD i ⟨0, 0⟩).focos
      media_movel := (rolling_mean 7 1 (focos_serie df)).getD i none
      desvio2 := (rolling_var 7 1 (focos_serie df)).getD i none })

/-- Models `is_anomalia`: `focos > media_movel + desvio_padrao * limite`.  When the
std is NaN the pandas comparison is `False`.  `focos > m + k·√v` is written
on squares as `m < focos ∧ k²·v < (focos - m)²`, an exact rephrasing for
`v ≥ 0`, `k > 0` (proved as `sqrt_threshold_iff`). -/
def is_anomalia (limite : ℚ) (r : ARow) : Bool :=
  match r.media_movel, r.desvio2 with
  | some m, some v =>
      decide (m < (r.focos : ℚ) ∧ limite ^ 2 * v < ((r.focos : ℚ) - m) ^ 2)
  | _, _ => false

/-- Source `detectar_anomalias(df, limite_desvio)`: the rows of the per-day series
flagged as anomalies. -/
def detectar_anomalias (df : List Obs) (limite : ℚ) : List ARow :=
  (serie_com_metricas df).filter (is_anomalia limite)

/-- Python `round` to the nearest integer, ties to even (banker's rounding). -/
def pyRound (q : ℚ) : Int :=
  let f := ⌊q⌋
  let r := q - f
  if r < 1 / 2 then f
  else if 1 / 2 < r then f + 1
  else if f % 2 = 0 then f else f + 1

/-- Python `round(q, 1)`. -/
def round1 (q : ℚ) : ℚ := (pyRound (q * 10) : ℚ) / 10

/-- One alert dict produced by `gerar_alerta_por_regiao`.  The Python key
`'local'` is spelled `loc` (`local` is reserved in Lean). -/
structure AlertaRegiao where
  tipo : String
  loc : String
  data : Nat
  focos : Nat
  media : ℚ
  aumento : ℚ
  nivel : String
deriving DecidableEq

/-- Models `pandas.Series.unique()`: the distinct values in order of first
occurrence. -/
def uniqueValues (l : List String) : List String :=
  l.foldl (fun acc x => if x ∈ acc then acc else acc ++ [x]) []

/-- Models `aumento = ((focos_hoje - media) / media) * 100`: the percent increase of
an anomalous row over its rolling mean.  The `getD 0` is dead: at an
anomalous row the rolling mean is provably present (and at least 1). -/
def aumento_percentual (row : ARow) : ℚ :=
  ((row.focos : ℚ) - row.media_movel.getD 0) / row.media_movel.getD 0 * 100

/-- The alert dict built for one anomalous row: percent increase over the
rolling mean, severity ALTO when the (unrounded) increase exceeds 100%. -/
def alerta_da_linha (tipo chave : String) (ref : Nat) (row : ARow) : AlertaRegiao :=
  { tipo := tipo, loc := chave, data := ref, focos := row.focos
    media := round1 (row.media_movel.getD 0)
    aumento := round1 (aumento_percentual row)
    nivel := if 100 < aumento_percentual row then "ALTO" else "MÉDIO" }

/-- One of the two loops of `gerar_alerta_por_regiao`: for each key value,
run `detectar_anomalias` on that region's rows (default threshold 1.5) and
emit an alert if the reference day is among the anomalies (the Python
`data_ref in anomalias['data'].values` guard followed by `.iloc[0]`). -/
def alertas_regiao (df : List Obs) (tipo : String) (keyOf : Obs → String)
    (chaves : List String) (ref : Nat) : List AlertaRegiao :=
  chaves.filterMap (fun k =>
    ((detectar_anomalias (df.filter (fun o => keyOf o == k)) (3 / 2)).find?
        (fun r => r.data == ref)).map (alerta_da_linha tipo k ref))

/-- Source `gerar_alerta_por_regiao(df, data_ref)` (`src/alertas/alertas.py`): the
per-UF loop followed by the per-biome loop.  `data_ref = none` models the
Python default `df['data'].max()`. -/
def gerar_alerta_por_regiao (df : List Obs) (data_ref : Option Nat) : List AlertaRegiao :=
  alertas_regiao df "UF" (·.uf) (uniqueValues (df.map (·.uf)))
      (data_ref.getD ((df.map (·.data)).foldl Nat.max 0))
    ++ alertas_regiao df "Bioma" (·.bioma) (uniqueValues (df.map (·.bioma)))
      (data_ref.getD ((df.map (·.data)).foldl Nat.max 0))

/-! ### Threshold alerts and configuration (`monitoramento-queimadas/alertas/alertas.py`) -/

/-- The threshold configuration (`config_alertas.json`):
global daily/weekly ceilings and the per-UF / per-biome tables, each with its
`"default"` entry. -/
structure Config where
  diario : Int
  semanal : Int
  por_uf : List (String × Int)
  por_uf_default : Int
  por_bioma : List (String × Int)
  por_bioma_default : Int
deriving DecidableEq

/-- The built-in default configuration written out by `carregar_config` when
loading fails. -/
def config_padrao : Config :=
  { diario := 1000, semanal := 5000
    por_uf := [("AM", 200), ("PA", 300)], por_uf_default := 100
    por_bioma := [("Amazonia", 500), ("Cerrado", 300)], por_bioma_default := 100 }

/-- Source `carregar_config`: the parsed file when it loads, else the built-in
default (`config_padrao`).  A missing or malformed file is modelled by a
`none` parse result; the logging and the write-back of the default file are
IO, outside the embedding. -/
def carregar_config (parsed : Option Config) : Config :=
  parsed.getD config_padrao

/-- One row of the temporal series CSV as read by the alert module
(`periodo`, `focos`; the other columns are not consulted). -/
structure TRow where
  periodo : Nat
  focos : Nat
deriving DecidableEq

/-- One row of the per-UF table as read by the alert module. -/
structure UFRow where
  uf : String
  focos : Nat
deriving DecidableEq

/-- One row of the per-biome table as read by the alert module. -/
structure BRow where
  bioma : String
  focos : Nat
deriving DecidableEq

/-- One alert record of `verificar_alertas` (the `mensagem` string is a
formatting of the same fields and is not modelled separately). -/
inductive Alerta where
  | globalDiario (data : Nat) (valor : Int) (limite : Int)
  | globalSemanal (dataInicio dataFim : Nat) (valor : Int) (limite : Int)
  | porUF (uf : String) (valor : Int) (limite : Int)
  | porBioma (bioma : String) (valor : Int) (limite : Int)
deriving DecidableEq

/-- Models `limites.get(chave, limite_default)`. -/
def lookup_limite (tbl : List (String × Int)) (padrao : Int) (chave : String) : Int :=
  ((tbl.find? (·.1 == chave)).map (·.2)).getD padrao

/-- Models `serie.iloc[-7:] if len(serie) >= 7 else serie`: the trailing 7-row
window, or the whole series when shorter.  This exact line appears both in
the weekly check of `verificar_alertas` and in the trend computation of
`gerar_relatorio_html`. -/
def ultimos7 (s : List TRow) : List TRow :=
  if 7 ≤ s.length then s.drop (s.length - 7) else s

/-- The global block of `verificar_alertas`: daily alert on the last row,
weekly alert on the sum of the trailing window. -/
def alertas_globais (serie : Option (List TRow)) (cfg : Config) : List Alerta :=
  match serie with
  | none => []
  | some s =>
    if s.isEmpty then [] else
      (if cfg.diario < ((s.getLast?.getD ⟨0, 0⟩).focos : Int) then
        [Alerta.globalDiario (s.getLast?.getD ⟨0, 0⟩).periodo
          ((s.getLast?.getD ⟨0, 0⟩).focos : Int) cfg.diario] else [])
      ++
      (if cfg.semanal < (((ultimos7 s).map (·.focos)).sum : Int) then
        [Alerta.globalSemanal ((ultimos7 s).head?.getD ⟨0, 0⟩).periodo
          ((ultimos7 s).getLast?.getD ⟨0, 0⟩).periodo
          (((ultimos7 s).map (·.focos)).sum : Int) cfg.semanal] else [])

/-- The per-UF block of `verificar_alertas`. -/
def alertas_uf (ufs : Option (List UFRow)) (cfg : Config) : List Alerta :=
  match ufs with
  | none => []
  | some t => t.filterMap (fun r =>
      if lookup_limite cfg.por_uf cfg.por_uf_default r.uf < (r.focos : Int) then
        some (Alerta.porUF r.uf (r.focos : Int)
          (lookup_limite cfg.por_uf cfg.por_uf_default r.uf))
      else none)

/-- The per-biome block of `verificar_alertas`. -/
def alertas_bioma (biomas : Option (List BRow)) (cfg : Config) : List Alerta :=
  match biomas with
  | none => []
  | some t => t.filterMap (fun r =>
      if lookup_limite cfg.por_bioma cfg.por_bioma_default r.bioma < (r.focos : Int) then
        some (Alerta.porBioma r.bioma (r.focos : Int)
          (lookup_limite cfg.por_bioma cfg.por_bioma_default r.bioma))
      else none)

/-- Source `verificar_alertas(serie_temporal, focos_por_uf, focos_por_bioma, config)`
(`monitoramento-queimadas/alertas/alertas.py`): global daily alert on the last
row, global weekly alert on the sum of the last 7 rows (the whole series when
shorter), then one alert per UF row and per biome row above its (possibly
default) limit.  `none` inputs model the Python `None` sentinels. -/
def verificar_alertas (serie : Option (List TRow)) (ufs : Option (List UFRow))
    (biomas : Option (List BRow)) (cfg : Config) : List Alerta :=
  alertas_globais serie cfg ++ alertas_uf ufs cfg ++ alertas_bioma biomas cfg

/-- Recognizer for the weekly global alert, used to state claims about the
weekly check in isolation. -/
def ehGlobalSemanal : Alerta → Bool
  | Alerta.globalSemanal _ _ _ _ => true
  | _ => false

/-! ### Report trend (`monitoramento-queimadas/relatorios/relatorio.py`) -/

/-- The trend label computed by `gerar_relatorio_html` (lines 316–327):
compare the first and last counts of the trailing 7-period window;
`Crescente` when `ultimo > primeiro * 1.2`, `Decrescente` when
`ultimo < primeiro * 0.8`, else `Estável`; `N/A` for series of length ≤ 1. -/
def tendencia (serie : List TRow) : String :=
  if 1 < serie.length then
    if (((ultimos7 serie).head?.getD ⟨0, 0⟩).focos : ℚ) * (6 / 5)
        < (((ultimos7 serie).getLast?.getD ⟨0, 0⟩).focos : ℚ) then "Crescente ↑"
    else if (((ultimos7 serie).getLast?.getD ⟨0, 0⟩).focos : ℚ)
        < (((ultimos7 serie).head?.getD ⟨0, 0⟩).focos : ℚ) * (4 / 5) then "Decrescente ↓"
    else "Estável →"
  else "N/A"

/-! ### Null filling (`monitoramento_queimadas/tratamento/utils_tratamento.py`) -/

/-- One dataframe cell: null (NaN/NaT/None), a numeric value, or a string. -/
inductive Celula where
  | nula : Celula
  | num (q : ℚ) : Celula
  | texto (s : String) : Celula
deriving DecidableEq

/-- One dataframe column: its name, whether `pd.api.types.is_numeric_dtype`
holds for it, and its cells. -/
structure Coluna where
  nome : String
  numerica : Bool
  celulas : List Celula
deriving DecidableEq

/-- The numeric values of a column, nulls skipped (as pandas aggregations
do). -/
def valores_num (cs : List Celula) : List ℚ :=
  cs.filterMap (fun c => match c with | .num q => some q | _ => none)

/-- Models `Series.median()` over the non-null values: middle element of the sorted
values, or the mean of the two middle elements for an even count. -/
def mediana (l : List ℚ) : ℚ :=
  let s := List.insertionSort (· ≤ ·) l
  if s.length % 2 = 1 then s.getD (s.length / 2) 0
  else (s.getD (s.length / 2 - 1) 0 + s.getD (s.length / 2) 0) / 2

/-- Models `fillna(v)`: replace the null cells by `v`. -/
def preenche (v : Celula) (cs : List Celula) : List Celula :=
  cs.map (fun c => if c = .nula then v else c)

/-- The categorical columns filled with `'Desconhecido'`. -/
def colunas_categoricas : List String := ["uf", "municipio", "bioma", "pais", "satelite"]

/-- The per-column body of `preencher_nulos`: columns without nulls are not
touched (the loop runs over `colunas_com_nulos`); numeric columns are filled
with their median — when every value is null the median is NaN and
`fillna(NaN)` leaves the column unchanged, modelled by the `[]` branch; the
`data` column is skipped; the categorical columns get `'Desconhecido'`;
everything else gets the empty string.  The branch order (numeric dtype
checked before the column name) matches the source. -/
def preencher_coluna (c : Coluna) : Coluna :=
  if Celula.nula ∉ c.celulas then c
  else if c.numerica then
    match valores_num c.celulas with
    | [] => c
    | v :: vs => { c with celulas := preenche (.num (mediana (v :: vs))) c.celulas }
  else if c.nome = "data" then c
  else if c.nome ∈ colunas_categoricas then
    { c with celulas := preenche (.texto "Desconhecido") c.celulas }
  else { c with celulas := preenche (.texto "") c.celulas }

/-- Source `preencher_nulos`: apply the fill to every column. -/
def preencher_nulos (df : List Coluna) : List Coluna :=
  df.map preencher_coluna

/-- The well-formedness predicate for a regional table `t` built from the key
values `chaves` (used to state C6): one row per distinct key present, and
rows pairwise ordered by count descending with ties between equal counts in
key-ASCENDING order (the stable descending sort). -/
def tabela_regional_ok (t : List RRow) (chaves : List String) : Prop :=
  (t.map (·.chave)).Nodup ∧
  (∀ k, k ∈ t.map (·.chave) ↔ k ∈ chaves) ∧
  t.Pairwise (fun a b => b.focos < a.focos ∨ (a.focos = b.focos ∧ a.chave < b.chave))

end Queimadas

namespace Queimadas

/-! ## Helper lemmas -/

theorem getD_range_map {α : Type} (f : Nat → α) (n i : Nat) (d : α) (h : i < n) :
    ((List.range n).map f).getD i d = f i := by
  rw [List.getD_eq_getElem?_getD]
  simp [List.getElem?_range, h]

theorem windowAt_length {w : Nat} (xs : List ℚ) {i : Nat} (h : i < xs.length) :
    (windowAt w xs i).length = i + 1 - (i + 1 - w) := by
  simp only [windowAt, List.length_drop, List.length_take]
  omega

theorem windowAt_length_pos {w : Nat} (hw : 1 ≤ w) (xs : List ℚ) {i : Nat}
    (h : i < xs.length) : 1 ≤ (windowAt w xs i).length := by
  rw [windowAt_length xs h]
  omega

theorem mem_of_mem_windowAt {w i : Nat} {xs : List ℚ} {x : ℚ}
    (h : x ∈ windowAt w xs i) : x ∈ xs :=
  List.mem_of_mem_take (List.mem_of_mem_drop h)

theorem length_le_sum_of_one_le (l : List ℚ) (h : ∀ x ∈ l, 1 ≤ x) :
    (l.length : ℚ) ≤ l.sum := by
  induction l with
  | nil => simp
  | cons a t ih =>
    have ha := h a (by simp)
    have ht := ih (fun x hx => h x (by simp [hx]))
    simp only [List.length_cons, List.sum_cons]
    push_cast
    linarith

theorem one_le_listMean {l : List ℚ} (h0 : l ≠ []) (h1 : ∀ x ∈ l, 1 ≤ x) :
    1 ≤ listMean l := by
  have hlen : 0 < (l.length : ℚ) := by
    have := List.length_pos.mpr h0
    exact_mod_cast this
  rw [listMean, le_div_iff₀ hlen]
  simpa using length_le_sum_of_one_le l h1

theorem sampleVar_nonneg {l : List ℚ} (h : 2 ≤ l.length) : 0 ≤ sampleVar l := by
  apply div_nonneg
  · apply List.sum_nonneg
    intro x hx
    simp only [List.mem_map] at hx
    obtain ⟨y, _, rfl⟩ := hx
    positivity
  · have : (2 : ℚ) ≤ (l.length : ℚ) := by exact_mod_cast h
    linarith

theorem rolling_mean_getD {w minp : Nat} {xs : List ℚ} {i : Nat} (h : i < xs.length)
    (hm : minp ≤ (windowAt w xs i).length) :
    (rolling_mean w minp xs).getD i none = some (listMean (windowAt w xs i)) := by
  rw [rolling_mean, getD_range_map _ _ _ _ h]
  simp [hm]

theorem rolling_var_getD {w minp : Nat} {xs : List ℚ} {i : Nat} (h : i < xs.length)
    (hm : minp ≤ (windowAt w xs i).length) (h2 : 2 ≤ (windowAt w xs i).length) :
    (rolling_var w minp xs).getD i none = some (sampleVar (windowAt w xs i)) := by
  rw [rolling_var, getD_range_map _ _ _ _ h]
  simp [hm, h2]

theorem serie_por_data_focos_pos {df : List Obs} {r : SRow}
    (h : r ∈ serie_por_data df) : 1 ≤ r.focos := by
  rw [serie_por_data] at h
  simp only [List.mem_map] at h
  obtain ⟨d, hd, rfl⟩ := h
  have hd2 : d ∈ (df.map (·.data)).dedup := ((List.perm_insertionSort _ _).mem_iff).mp hd
  rw [List.mem_dedup, List.mem_map] at hd2
  obtain ⟨o, ho, rfl⟩ := hd2
  have : 0 < df.countP (fun x => x.data == o.data) :=
    List.countP_pos_iff.mpr ⟨o, ho, by simp⟩
  exact this

theorem serie_focos_cast_one_le {df : List Obs} {x : ℚ}
    (h : x ∈ (serie_por_data df).map (fun r => (r.focos : ℚ))) : 1 ≤ x := by
  simp only [List.mem_map] at h
  obtain ⟨r, hr, rfl⟩ := h
  exact_mod_cast serie_por_data_focos_pos hr

theorem sqrt_threshold_iff {f m v k : ℝ} (_hv : 0 ≤ v) (hk : 0 < k) :
    m + k * Real.sqrt v < f ↔ m < f ∧ k ^ 2 * v < (f - m) ^ 2 := by
  have hs : 0 ≤ k * Real.sqrt v := mul_nonneg hk.le (Real.sqrt_nonneg v)
  have hsq : Real.sqrt (k ^ 2 * v) = k * Real.sqrt v := by
    rw [Real.sqrt_mul (by positivity) v, Real.sqrt_sq hk.le]
  constructor
  · intro h
    have hmf : m < f := by linarith
    refine ⟨hmf, ?_⟩
    have h2 : Real.sqrt (k ^ 2 * v) < f - m := by rw [hsq]; linarith
    exact (Real.sqrt_lt' (by linarith)).mp h2
  · rintro ⟨h1, h2⟩
    have h3 : Real.sqrt (k ^ 2 * v) < f - m := (Real.sqrt_lt' (by linarith)).mpr h2
    rw [hsq] at h3
    linarith

/-! ## Claims -/

/-- Claim C8: a missing or malformed configuration file does not raise: the
loader returns the built-in default threshold set — global daily limit 1000,
weekly limit 5000, per-UF and per-biome tables each with a default of 100 —
so alert evaluation always receives a usable configuration. -/
theorem C8_config_fallback :
    carregar_config none = config_padrao ∧
    config_padrao.diario = 1000 ∧ config_padrao.semanal = 5000 ∧
    config_padrao.por_uf_default = 100 ∧ config_padrao.por_bioma_default = 100 ∧
    lookup_limite config_padrao.por_uf config_padrao.por_uf_default "SP" = 100 ∧
    lookup_limite config_padrao.por_uf config_padrao.por_uf_default "AM" = 200 := by
  decide

/-- Claim C2 (amended): an empty observation set makes the temporal and the
spatial aggregators return the Python `None` sentinel (not an empty table),
and the alert evaluators, fed those `None` inputs (resp. the empty set),
emit no alerts; none of them raises. -/
theorem C2_entrada_vazia (janela : Int) (cfg : Config) (ref : Option Nat) :
    analisar_serie_temporal [] janela = none ∧
    analisar_por_uf [] = none ∧
    analisar_por_bioma [] = none ∧
    verificar_alertas none none none cfg = [] ∧
    gerar_alerta_por_regiao [] ref = [] :=
  ⟨rfl, rfl, rfl, rfl, rfl⟩

/-- Claim C2, counterexample: on the empty input the aggregators do NOT
return an empty aggregate sequence (`some []`); they return `none`
(Python `None`). -/
theorem C2_cex_sentinela :
    analisar_serie_temporal [] 7 ≠ some [] ∧ analisar_por_uf [] ≠ some [] := by
  decide

/-- Claim C4: the alert evaluators are pure functions of their arguments
(the embedding carries no hidden state, mirroring the source, whose only
module-level state is a logger); evaluating twice on identical inputs gives
identical alert lists — same length, same elements, same order. -/
theorem C4_idempotencia (serie : Option (List TRow)) (ufs : Option (List UFRow))
    (biomas : Option (List BRow)) (cfg : Config) (df : List Obs) (ref : Option Nat) :
    verificar_alertas serie ufs biomas cfg = verificar_alertas serie ufs biomas cfg ∧
    (verificar_alertas serie ufs biomas cfg).length
      = (verificar_alertas serie ufs biomas cfg).length ∧
    gerar_alerta_por_regiao df ref = gerar_alerta_por_regiao df ref :=
  ⟨rfl, rfl, rfl⟩

/-- Claim C7: for a temporal series with more than one row the trend label is
computed from the first and last count of the trailing 7-period window (the
whole series when shorter): `Crescente` exactly when `ultimo > primeiro*1.2`,
`Decrescente` exactly when `ultimo < primeiro*0.8`, `Estável` otherwise. -/
theorem C7_rotulo_tendencia (serie : List TRow) (p u : ℚ) (h : 1 < serie.length)
    (hp : p = (((ultimos7 serie).head?.getD ⟨0, 0⟩).focos : ℚ))
    (hu : u = (((ultimos7 serie).getLast?.getD ⟨0, 0⟩).focos : ℚ)) :
    (tendencia serie = "Crescente ↑" ↔ p * (6 / 5) < u) ∧
    (tendencia serie = "Decrescente ↓" ↔ u < p * (4 / 5)) ∧
    (tendencia serie = "Estável →" ↔ ¬p * (6 / 5) < u ∧ ¬u < p * (4 / 5)) := by
  have hp0 : 0 ≤ p := by rw [hp]; positivity
  rw [tendencia, if_pos h]
  rw [← hp, ← hu]
  split_ifs with h1 h2
  · refine ⟨iff_of_true rfl h1, iff_of_false (by decide) ?_, iff_of_false (by decide) ?_⟩
    · intro h2
      linarith
    · rintro ⟨a, -⟩
      exact a h1
  · exact ⟨iff_of_false (by decide) h1, iff_of_true rfl h2,
      iff_of_false (by decide) (fun h3 => h3.2 h2)⟩
  · exact ⟨iff_of_false (by decide) h1, iff_of_false (by decide) h2,
      iff_of_true rfl ⟨h1, h2⟩⟩

/-- Witness for C7 at a concrete series: on counts `[10, 20]` the label is
`Crescente` since `20 > 10 × 1.2`. -/
theorem C7_rotulo_tendencia_witness :
    (1 < ([⟨0, 10⟩, ⟨1, 20⟩] : List TRow).length) ∧
    (tendencia [⟨0, 10⟩, ⟨1, 20⟩] = "Crescente ↑" ↔ (10 : ℚ) * (6 / 5) < 20) :=
  ⟨by decide, (C7_rotulo_tendencia [⟨0, 10⟩, ⟨1, 20⟩] 10 20 (by decide)
    (by decide) (by decide)).1⟩

end Queimadas

namespace Queimadas

/-- Every alert produced by the per-UF block is a `porUF` alert. -/
theorem alertas_uf_nao_semanal {ufs : Option (List UFRow)} {cfg : Config} {a : Alerta}
    (ha : a ∈ alertas_uf ufs cfg) : ehGlobalSemanal a = false := by
  cases ufs with
  | none => simp [alertas_uf] at ha
  | some t =>
    simp only [alertas_uf, List.mem_filterMap] at ha
    obtain ⟨r, -, hr⟩ := ha
    split at hr
    · cases hr
      rfl
    · cases hr

/-- Every alert produced by the per-biome block is a `porBioma` alert. -/
theorem alertas_bioma_nao_semanal {biomas : Option (List BRow)} {cfg : Config} {a : Alerta}
    (ha : a ∈ alertas_bioma biomas cfg) : ehGlobalSemanal a = false := by
  cases biomas with
  | none => simp [alertas_bioma] at ha
  | some t =>
    simp only [alertas_bioma, List.mem_filterMap] at ha
    obtain ⟨r, -, hr⟩ := ha
    split at hr
    · cases hr
      rfl
    · cases hr

/-- Claim C1 (amended): in `analisar_serie_temporal` — which computes the
rolling mean through `calcular_media_movel`, i.e. with `min_periods=1` —
the rolling mean at every index `i` is present (never NaN) and equals the
arithmetic mean of `counts[max(0,i-w+1) : i+1]`, using however many periods
are available.  (The duplicate `gerar_serie_temporal` instead NaN-pads the
first `w-1` entries: see the counterexample.) -/
theorem C1_media_movel_min_periods (df : List Obs) (janela : Int) (h : df ≠ []) :
    (analisar_serie_temporal df janela).isSome = true ∧
    ∀ rows, analisar_serie_temporal df janela = some rows →
      rows.length = (serie_por_data df).length ∧
      ∀ i, i < rows.length →
        (rows.getD i ⟨0, 0, none, false, 0⟩).media_movel
          = some (mediaJanelaSpec (if janela ≤ 0 then 1 else janela.toNat)
              (focos_serie df) i) := by
  have hne : ¬(df.isEmpty = true) := by simp [h]
  constructor
  · rw [analisar_serie_temporal, if_neg hne]
    rfl
  · intro rows hrows
    rw [analisar_serie_temporal, if_neg hne, Option.some.injEq] at hrows
    subst hrows
    constructor
    · simp
    · intro i hi
      simp only [List.length_map, List.length_range] at hi
      rw [getD_range_map _ _ _ _ hi]
      show (calcular_media_movel (focos_serie df) janela).getD i none = _
      rw [calcular_media_movel]
      have hxs : i < (focos_serie df).length := by
        simpa [focos_serie] using hi
      have hw : 1 ≤ (if janela ≤ 0 then 1 else janela.toNat) := by
        split
        · exact le_refl 1
        · omega
      rw [rolling_mean_getD hxs (windowAt_length_pos hw _ hxs)]
      rfl

/-- Witness for C1 at a concrete two-day input: the series exists (and, by
the theorem, its rolling means are all present). -/
theorem C1_media_movel_min_periods_witness :
    (([⟨0, "SP", "Cerrado"⟩, ⟨1, "SP", "Cerrado"⟩] : List Obs) ≠ []) ∧
    (analisar_serie_temporal [⟨0, "SP", "Cerrado"⟩, ⟨1, "SP", "Cerrado"⟩] 7).isSome = true :=
  ⟨by decide,
    (C1_media_movel_min_periods [⟨0, "SP", "Cerrado"⟩, ⟨1, "SP", "Cerrado"⟩] 7 (by decide)).1⟩

/-- Claim C1, counterexample: `gerar_serie_temporal` (the `src/` copy, which
uses `rolling(window=7)` with the default `min_periods`) leaves the rolling
mean NaN at index 0 of a one-day series, where the claim demands the mean of
`counts[0:1]`, i.e. `1`. -/
theorem C1_cex_nan_inicial :
    (gerar_serie_temporal [⟨0, "SP", "Cerrado"⟩]).map (·.media_movel) = [none] ∧
    mediaJanelaSpec 7 [1] 0 = 1 ∧
    (gerar_serie_temporal [⟨0, "SP", "Cerrado"⟩]).map (·.media_movel)
      ≠ [some (mediaJanelaSpec 7 [1] 0)] := by
  refine ⟨by decide, ?_, by decide⟩
  norm_num [mediaJanelaSpec]

/-- Claim C9: for a non-empty series with fewer than 7 rows the weekly global
check sums the counts of the whole series and fires exactly when that sum
exceeds the configured weekly ceiling; the weekly alert is the only
`globalSemanal` alert, and the check never raises. -/
theorem C9_semanal_serie_curta (s : List TRow) (ufs : Option (List UFRow))
    (biomas : Option (List BRow)) (cfg : Config) (h0 : s ≠ []) (h7 : s.length < 7) :
    (verificar_alertas (some s) ufs biomas cfg).filter ehGlobalSemanal
      = if cfg.semanal < ((s.map (·.focos)).sum : Int) then
          [Alerta.globalSemanal ((s.head?.getD ⟨0, 0⟩).periodo)
            ((s.getLast?.getD ⟨0, 0⟩).periodo) ((s.map (·.focos)).sum : Int) cfg.semanal]
        else [] := by
  have hult : ultimos7 s = s := by rw [ultimos7, if_neg (by omega)]
  have hisne : ¬(s.isEmpty = true) := by simp [h0]
  have hfu : (alertas_uf ufs cfg).filter ehGlobalSemanal = [] :=
    List.filter_eq_nil_iff.mpr (fun a ha => by simp [alertas_uf_nao_semanal ha])
  have hfb : (alertas_bioma biomas cfg).filter ehGlobalSemanal = [] :=
    List.filter_eq_nil_iff.mpr (fun a ha => by simp [alertas_bioma_nao_semanal ha])
  rw [verificar_alertas, List.filter_append, List.filter_append, hfu, hfb,
    List.append_nil, List.append_nil]
  simp only [alertas_globais, if_neg hisne, hult, List.filter_append]
  split_ifs with hdia hsem hsem
  · simp [ehGlobalSemanal]
  · simp [ehGlobalSemanal]
  · simp [ehGlobalSemanal]
  · simp [ehGlobalSemanal]

/-- Witness for C9: counts `[10, 5]` with weekly ceiling 8 fire one weekly
alert with value 15. -/
theorem C9_semanal_serie_curta_witness :
    (([⟨0, 10⟩, ⟨1, 5⟩] : List TRow) ≠ [] ∧ ([⟨0, 10⟩, ⟨1, 5⟩] : List TRow).length < 7) ∧
    (verificar_alertas (some [⟨0, 10⟩, ⟨1, 5⟩]) none none
        ⟨1000, 8, [], 100, [], 100⟩).filter ehGlobalSemanal
      = [Alerta.globalSemanal 0 1 15 8] := by
  refine ⟨⟨by decide, by decide⟩, ?_⟩
  rw [C9_semanal_serie_curta [⟨0, 10⟩, ⟨1, 5⟩] none none ⟨1000, 8, [], 100, [], 100⟩
    (by decide) (by decide)]
  decide

end Queimadas

namespace Queimadas

/-- The keys of the group-by table are the sorted distinct keys. -/
theorem agrupar_contar_chaves (chaves : List String) :
    (agrupar_contar chaves).map (·.chave) = List.insertionSort (· ≤ ·) chaves.dedup := by
  rw [agrupar_contar, List.map_map]
  exact List.map_id _

/-- Every group of the group-by table counts at least one occurrence. -/
theorem agrupar_contar_focos_pos {chaves : List String} {r : CRow}
    (h : r ∈ agrupar_contar chaves) : 1 ≤ r.focos := by
  rw [agrupar_contar] at h
  simp only [List.mem_map] at h
  obtain ⟨k, hk, rfl⟩ := h
  have hk2 : k ∈ chaves := by
    rw [← List.mem_dedup]
    exact ((List.perm_insertionSort _ _).mem_iff).mp hk
  exact List.countP_pos_iff.mpr ⟨k, hk2, by simp⟩

/-- The sorted table is a permutation of the group-by table. -/
theorem tabela_ordenada_perm (chaves : List String) :
    (tabela_ordenada chaves).Perm (agrupar_contar chaves) :=
  List.perm_insertionSort _ _

/-- The keys of the sorted table are a permutation of the distinct keys. -/
theorem tabela_ordenada_chaves_perm (chaves : List String) :
    ((tabela_ordenada chaves).map (·.chave)).Perm chaves.dedup := by
  have h1 := (tabela_ordenada_perm chaves).map (·.chave)
  rw [agrupar_contar_chaves] at h1
  exact h1.trans (List.perm_insertionSort _ _)

/-- The sorted table has one row per distinct key. -/
theorem tabela_ordenada_chaves_nodup (chaves : List String) :
    ((tabela_ordenada chaves).map (·.chave)).Nodup :=
  ((tabela_ordenada_chaves_perm chaves).symm).nodup (List.nodup_dedup chaves)

/-- Membership in the sorted table's keys is membership among the input
keys. -/
theorem tabela_ordenada_chaves_mem (chaves : List String) (k : String) :
    k ∈ (tabela_ordenada chaves).map (·.chave) ↔ k ∈ chaves := by
  rw [(tabela_ordenada_chaves_perm chaves).mem_iff, List.mem_dedup]

/-- On a non-empty key list, the table's total count is positive. -/
theorem total_focos_sum_pos {chaves : List String} (h : chaves ≠ []) :
    0 < ((tabela_ordenada chaves).map (·.focos)).sum := by
  apply List.sum_pos
  · intro x hx
    simp only [List.mem_map] at hx
    obtain ⟨r, hr, rfl⟩ := hx
    exact agrupar_contar_focos_pos ((tabela_ordenada_perm chaves).subset hr)
  · intro hmap
    have h0 : tabela_ordenada chaves = [] := by
      cases htab : tabela_ordenada chaves with
      | nil => rfl
      | cons a t => rw [htab] at hmap; simp at hmap
    obtain ⟨c, hc⟩ := List.exists_mem_of_ne_nil chaves h
    have : c ∈ (tabela_ordenada chaves).map (·.chave) :=
      (tabela_ordenada_chaves_mem chaves c).mpr hc
    rw [h0] at this
    simp at this

/-- Pulling a constant `/ T * 100` out of a list sum. -/
theorem sum_map_div_mul (t : List CRow) (T : ℚ) :
    (t.map (fun r => (r.focos : ℚ) / T * 100)).sum
      = (t.map (fun r => (r.focos : ℚ))).sum / T * 100 := by
  induction t with
  | nil => simp
  | cons a l ih =>
    simp only [List.map_cons, List.sum_cons, ih]
    ring

/-- Core of claim C3: for every non-empty key list the percentages of the
regional table sum to exactly 100, each row carrying
`percentual = focos / total * 100`. -/
theorem percentuais_somam_100 {chaves : List String} (h : chaves ≠ []) :
    (analisar_por_chave chaves).isSome = true ∧
    ∀ t, analisar_por_chave chaves = some t →
      (t.map (·.percentual)).sum = 100 ∧
      ∀ r ∈ t, r.percentual = (r.focos : ℚ) / total_focos chaves * 100 := by
  have hne : ¬(chaves.isEmpty = true) := by simp [h]
  constructor
  · rw [analisar_por_chave, if_neg hne]
    rfl
  · intro t ht
    rw [analisar_por_chave, if_neg hne, Option.some.injEq] at ht
    subst ht
    constructor
    · rw [List.map_map]
      have hcomp : ((fun r : RRow => r.percentual) ∘
          (fun r : CRow => (⟨r.chave, r.focos, (r.focos : ℚ) / total_focos chaves * 100⟩ : RRow)))
          = fun r : CRow => (r.focos : ℚ) / total_focos chaves * 100 := rfl
      rw [hcomp, sum_map_div_mul]
      have htot : ((tabela_ordenada chaves).map (fun r => (r.focos : ℚ))).sum
          = total_focos chaves := by
        rw [total_focos, Nat.cast_list_sum, List.map_map]
        rfl
      rw [htot, div_self, one_mul]
      rw [total_focos]
      have := total_focos_sum_pos h
      positivity
    · intro r hr
      simp only [List.mem_map] at hr
      obtain ⟨c, -, rfl⟩ := hr
      rfl

/-- Claim C3: for every non-empty observation set and either grouping key,
the percentages of the regional table sum to exactly 100 (hence within the
0.01 tolerance), each row's percentage being `100 × count / total`. -/
theorem C3_percentuais_100 (df : List Obs) (h : df ≠ []) :
    ((analisar_por_uf df).isSome = true ∧
      ∀ t, analisar_por_uf df = some t →
        (t.map (·.percentual)).sum = 100 ∧
        ∀ r ∈ t, r.percentual = (r.focos : ℚ) / total_focos (df.map (·.uf)) * 100) ∧
    ((analisar_por_bioma df).isSome = true ∧
      ∀ t, analisar_por_bioma df = some t →
        (t.map (·.percentual)).sum = 100 ∧
        ∀ r ∈ t, r.percentual = (r.focos : ℚ) / total_focos (df.map (·.bioma)) * 100) := by
  have hu : (df.map (·.uf)) ≠ [] := by simpa using h
  have hb : (df.map (·.bioma)) ≠ [] := by simpa using h
  exact ⟨percentuais_somam_100 hu, percentuais_somam_100 hb⟩

/-- Witness for C3 at a concrete two-state input: the table exists (and, by
the theorem, its percentages sum to 100). -/
theorem C3_percentuais_100_witness :
    (([⟨0, "SP", "Cerrado"⟩, ⟨0, "AM", "Amazonia"⟩] : List Obs) ≠ []) ∧
    (analisar_por_uf [⟨0, "SP", "Cerrado"⟩, ⟨0, "AM", "Amazonia"⟩]).isSome = true :=
  ⟨by decide,
    (C3_percentuais_100 [⟨0, "SP", "Cerrado"⟩, ⟨0, "AM", "Amazonia"⟩] (by decide)).1.1⟩

end Queimadas

namespace Queimadas

/-- Core of claim C6: for every non-empty key list the regional table
exists, has one row per distinct key present, and is pairwise ordered by
count descending with ties between equal counts in key-ascending order
(pandas `sort_values(ascending=False)` is a stable descending sort). -/
theorem tabela_bem_ordenada {chaves : List String} (h : chaves ≠ []) :
    (analisar_por_chave chaves).isSome = true ∧
    ∀ t, analisar_por_chave chaves = some t → tabela_regional_ok t chaves := by
  have hne : ¬(chaves.isEmpty = true) := by simp [h]
  constructor
  · rw [analisar_por_chave, if_neg hne]
    rfl
  · intro t ht
    rw [analisar_por_chave, if_neg hne, Option.some.injEq] at ht
    subst ht
    have hkeys : List.map (·.chave) ((tabela_ordenada chaves).map (fun r =>
        (⟨r.chave, r.focos, (r.focos : ℚ) / total_focos chaves * 100⟩ : RRow)))
        = (tabela_ordenada chaves).map (·.chave) := by
      rw [List.map_map]
      rfl
    refine ⟨?_, ?_, ?_⟩
    · rw [hkeys]
      exact tabela_ordenada_chaves_nodup chaves
    · intro k
      rw [hkeys]
      exact tabela_ordenada_chaves_mem chaves k
    · have hsorted : List.Pairwise ordemContagem (tabela_ordenada chaves) := by
        rw [tabela_ordenada]
        exact List.sorted_insertionSort ordemContagem (agrupar_contar chaves)
      have hnodup : List.Pairwise (fun a b : CRow => a.chave ≠ b.chave)
          (tabela_ordenada chaves) :=
        List.pairwise_map.mp (tabela_ordenada_chaves_nodup chaves)
      refine List.pairwise_map.mpr (List.Pairwise.imp ?_ (hsorted.and hnodup))
      intro a b hab
      obtain ⟨hord, hne2⟩ := hab
      rcases hord with h1 | ⟨h1, h2⟩
      · exact Or.inl h1
      · exact Or.inr ⟨h1, lt_of_le_of_ne h2 hne2⟩

/-- Claim C6: for every non-empty observation set and either grouping key,
the spatial aggregator's table has exactly one row per distinct key value
present and is sorted by count descending, with ties between equal counts
broken by key ascending (pandas `sort_values(ascending=False)` is a stable
descending sort: `nargsort` reverses the array before the ascending argsort
and the indexer after), so the output order is a deterministic function of
the input. -/
theorem C6_ordenacao_regional (df : List Obs) (h : df ≠ []) :
    ((analisar_por_uf df).isSome = true ∧
      ∀ t, analisar_por_uf df = some t → tabela_regional_ok t (df.map (·.uf))) ∧
    ((analisar_por_bioma df).isSome = true ∧
      ∀ t, analisar_por_bioma df = some t → tabela_regional_ok t (df.map (·.bioma))) := by
  have hu : (df.map (·.uf)) ≠ [] := by simpa using h
  have hb : (df.map (·.bioma)) ≠ [] := by simpa using h
  exact ⟨tabela_bem_ordenada hu, tabela_bem_ordenada hb⟩

/-- Witness for C6 at a concrete TIED input: states AC and BA with one
hotspot each.  The table exists, and — stable descending sort — the tied
counts come out in key-ascending order `["AC", "BA"]`. -/
theorem C6_ordenacao_regional_witness :
    (([⟨0, "AC", "X"⟩, ⟨0, "BA", "Y"⟩] : List Obs) ≠ []) ∧
    (analisar_por_uf [⟨0, "AC", "X"⟩, ⟨0, "BA", "Y"⟩]).isSome = true ∧
    (analisar_por_uf [⟨0, "AC", "X"⟩, ⟨0, "BA", "Y"⟩]).map (fun t => t.map (·.chave))
      = some ["AC", "BA"] := by
  refine ⟨by decide,
    (C6_ordenacao_regional [⟨0, "AC", "X"⟩, ⟨0, "BA", "Y"⟩] (by decide)).1.1, ?_⟩
  have hle : ("AC" : String) ≤ "BA" := by
    rw [String.le_iff_toList_le]
    decide
  have hag : agrupar_contar (([⟨0, "AC", "X"⟩, ⟨0, "BA", "Y"⟩] : List Obs).map (·.uf))
      = [⟨"AC", 1⟩, ⟨"BA", 1⟩] := by
    rw [agrupar_contar]
    have hd : (([⟨0, "AC", "X"⟩, ⟨0, "BA", "Y"⟩] : List Obs).map (·.uf)).dedup
        = ["AC", "BA"] := by decide
    rw [hd]
    have hs : List.insertionSort (α := String) (· ≤ ·) ["AC", "BA"] = ["AC", "BA"] := by
      simp [List.insertionSort, List.orderedInsert, hle]
    rw [hs]
    decide
  have hord : ordemContagem ⟨"AC", 1⟩ ⟨"BA", 1⟩ := Or.inr ⟨rfl, hle⟩
  have htab : tabela_ordenada (([⟨0, "AC", "X"⟩, ⟨0, "BA", "Y"⟩] : List Obs).map (·.uf))
      = [⟨"AC", 1⟩, ⟨"BA", 1⟩] := by
    rw [tabela_ordenada, hag]
    simp [List.insertionSort, List.orderedInsert, hord]
  rw [analisar_por_uf, analisar_por_chave, if_neg (by decide), htab]
  rfl

end Queimadas

namespace Queimadas

/-- Every row of the per-day metric series carries a present rolling mean of
value at least 1 (counts are at least 1, and `min_periods=1` always leaves
at least one period in the window). -/
theorem serie_com_metricas_media {df : List Obs} {r : ARow}
    (h : r ∈ serie_com_metricas df) : ∃ m : ℚ, r.media_movel = some m ∧ 1 ≤ m := by
  rw [serie_com_metricas] at h
  simp only [List.mem_map, List.mem_range] at h
  obtain ⟨i, hi, rfl⟩ := h
  have hxs : i < (focos_serie df).length := by
    simpa [focos_serie] using hi
  refine ⟨listMean (windowAt 7 (focos_serie df) i), ?_, ?_⟩
  · show (rolling_mean 7 1 (focos_serie df)).getD i none = _
    exact rolling_mean_getD hxs (windowAt_length_pos (by norm_num) _ hxs)
  · apply one_le_listMean
    · have := windowAt_length_pos (w := 7) (by norm_num) (focos_serie df) hxs
      intro hnil
      rw [hnil] at this
      simp at this
    · intro x hx
      exact serie_focos_cast_one_le (mem_of_mem_windowAt hx)

/-- Every present rolling variance of the per-day metric series is
nonnegative. -/
theorem serie_com_metricas_var {df : List Obs} {r : ARow}
    (h : r ∈ serie_com_metricas df) : ∀ v, r.desvio2 = some v → 0 ≤ v := by
  rw [serie_com_metricas] at h
  simp only [List.mem_map, List.mem_range] at h
  obtain ⟨i, hi, rfl⟩ := h
  intro v hv
  have hxs : i < (focos_serie df).length := by
    simpa [focos_serie] using hi
  have hv2 : (rolling_var 7 1 (focos_serie df)).getD i none = some v := hv
  rw [rolling_var, getD_range_map _ _ _ _ hxs] at hv2
  simp only at hv2
  split at hv2
  · rename_i hcond
    obtain rfl : sampleVar (windowAt 7 (focos_serie df) i) = v := by
      exact Option.some.inj hv2
    exact sampleVar_nonneg hcond.2
  · cases hv2

/-- Membership in `detectar_anomalias` splits into series membership and the
anomaly flag. -/
theorem detectar_anomalias_spec {df : List Obs} {limite : ℚ} {r : ARow}
    (h : r ∈ detectar_anomalias df limite) :
    r ∈ serie_com_metricas df ∧ is_anomalia limite r = true := by
  rw [detectar_anomalias] at h
  exact ⟨List.mem_of_mem_filter h, List.of_mem_filter h⟩

/-- The anomaly flag holds exactly when both rolling statistics are present
and the squared threshold comparison holds. -/
theorem is_anomalia_iff {limite : ℚ} {r : ARow} :
    is_anomalia limite r = true ↔
      ∃ m v, r.media_movel = some m ∧ r.desvio2 = some v ∧
        m < (r.focos : ℚ) ∧ limite ^ 2 * v < ((r.focos : ℚ) - m) ^ 2 := by
  obtain ⟨d, f, mm, dv⟩ := r
  cases mm <;> cases dv <;> simp [is_anomalia]

/-- Unpacking one emitted regional alert: the key it came from, the anomalous
row behind it, and the shape of the record. -/
theorem alertas_regiao_mem {df : List Obs} {tipo : String} {keyOf : Obs → String}
    {chaves : List String} {ref : Nat} {a : AlertaRegiao}
    (h : a ∈ alertas_regiao df tipo keyOf chaves ref) :
    ∃ k row, k ∈ chaves ∧
      row ∈ detectar_anomalias (df.filter (fun o => keyOf o == k)) (3 / 2) ∧
      row.data = ref ∧ a = alerta_da_linha tipo k ref row := by
  rw [alertas_regiao] at h
  simp only [List.mem_filterMap] at h
  obtain ⟨k, hk, hfk⟩ := h
  cases hfind : (detectar_anomalias (df.filter fun o => keyOf o == k) (3 / 2)).find?
      (fun r => r.data == ref) with
  | none =>
    rw [hfind] at hfk
    cases hfk
  | some row =>
    rw [hfind] at hfk
    refine ⟨k, row, hk, List.mem_of_find?_eq_some hfind, ?_, ?_⟩
    · have := List.find?_some hfind
      simpa using this
    · exact (Option.some.inj hfk).symm

/-- Lemma: `pyRound` never rounds below an integer lower bound. -/
theorem pyRound_ge {q : ℚ} {n : Int} (h : (n : ℚ) ≤ q) : n ≤ pyRound q := by
  rw [pyRound]
  have hf : n ≤ ⌊q⌋ := Int.le_floor.mpr h
  split_ifs <;> omega

/-- Lemma: `round(m, 1)` of a mean that is at least 1 is positive. -/
theorem round1_pos {m : ℚ} (h : 1 ≤ m) : 0 < round1 m := by
  rw [round1]
  have h10 : ((10 : Int) : ℚ) ≤ m * 10 := by
    push_cast
    linarith
  have hp := pyRound_ge h10
  have hq : (10 : ℚ) ≤ (pyRound (m * 10) : ℚ) := by exact_mod_cast hp
  have : (0 : ℚ) < (pyRound (m * 10) : ℚ) := by linarith
  exact div_pos this (by norm_num)

/-- Claim C5: every alert emitted by `gerar_alerta_por_regiao` has a strictly
positive (rounded) baseline mean — so a zero-baseline region can never
trigger a relative alert and the percent-increase division is never by
zero — and it is emitted only because, in its region's series at the
reference day, both rolling statistics are present, the baseline mean `m` is
positive, and the day's count exceeds `m + 1.5 × std` (stated over `ℝ` with
the actual square root). -/
theorem C5_baseline_positiva (df : List Obs) (ref : Option Nat) (a : AlertaRegiao)
    (ha : a ∈ gerar_alerta_por_regiao df ref) :
    0 < a.media ∧
    ∃ sub row m v,
      ((a.tipo = "UF" ∧ sub = df.filter (fun o => o.uf == a.loc)) ∨
        (a.tipo = "Bioma" ∧ sub = df.filter (fun o => o.bioma == a.loc))) ∧
      row ∈ detectar_anomalias sub (3 / 2) ∧
      row.data = ref.getD ((df.map (·.data)).foldl Nat.max 0) ∧
      row.media_movel = some m ∧ row.desvio2 = some v ∧
      1 ≤ m ∧ 0 ≤ v ∧ a.focos = row.focos ∧ a.media = round1 m ∧
      (m : ℝ) + (3 / 2) * Real.sqrt (v : ℝ) < ((row.focos : ℕ) : ℝ) := by
  rw [gerar_alerta_por_regiao, List.mem_append] at ha
  have principal : ∀ (tipo : String) (keyOf : Obs → String) (chaves : List String),
      a ∈ alertas_regiao df tipo keyOf chaves
        (ref.getD ((df.map (·.data)).foldl Nat.max 0)) →
      0 < a.media ∧
      ∃ row m v,
        a.tipo = tipo ∧
        row ∈ detectar_anomalias (df.filter (fun o => keyOf o == a.loc)) (3 / 2) ∧
        row.data = ref.getD ((df.map (·.data)).foldl Nat.max 0) ∧
        row.media_movel = some m ∧ row.desvio2 = some v ∧
        1 ≤ m ∧ 0 ≤ v ∧ a.focos = row.focos ∧ a.media = round1 m ∧
        (m : ℝ) + (3 / 2) * Real.sqrt (v : ℝ) < ((row.focos : ℕ) : ℝ) := by
    intro tipo keyOf chaves hmem
    obtain ⟨k, row, -, hrow, hdata, rfl⟩ := alertas_regiao_mem hmem
    obtain ⟨hserie, hanom⟩ := detectar_anomalias_spec hrow
    obtain ⟨m, v, hm, hv, hmf, hsq⟩ := is_anomalia_iff.mp hanom
    obtain ⟨m2, hm2, hm2ge⟩ := serie_com_metricas_media hserie
    have hmm : m2 = m := by
      rw [hm] at hm2
      exact (Option.some.inj hm2).symm
    have hmge : 1 ≤ m := hmm ▸ hm2ge
    have hv0 : 0 ≤ v := serie_com_metricas_var hserie v hv
    have hmedia : (alerta_da_linha tipo k
        (ref.getD ((df.map (·.data)).foldl Nat.max 0)) row).media = round1 m := by
      show round1 (row.media_movel.getD 0) = round1 m
      rw [hm]
      rfl
    refine ⟨?_, row, m, v, rfl, ?_, hdata, hm, hv, hmge, hv0, rfl, hmedia, ?_⟩
    · rw [hmedia]
      exact round1_pos hmge
    · show row ∈ detectar_anomalias
        (df.filter (fun o => keyOf o == (alerta_da_linha tipo k
          (ref.getD ((df.map (·.data)).foldl Nat.max 0)) row).loc)) (3 / 2)
      exact hrow
    · have hcast : ((m : ℝ) < ((row.focos : ℕ) : ℝ)) ∧
          ((3 : ℝ) / 2) ^ 2 * (v : ℝ) < (((row.focos : ℕ) : ℝ) - (m : ℝ)) ^ 2 := by
        constructor
        · exact_mod_cast hmf
        · have hsq2 := (Rat.cast_lt (K := ℝ)).mpr hsq
          push_cast at hsq2
          exact_mod_cast hsq2
      have := (sqrt_threshold_iff (f := ((row.focos : ℕ) : ℝ)) (m := (m : ℝ))
        (v := (v : ℝ)) (k := 3 / 2) (by exact_mod_cast hv0) (by norm_num)).mpr hcast
      linarith
  rcases ha with hUF | hBio
  · obtain ⟨hmedia, row, m, v, htipo, hrow, hrest⟩ := principal "UF" (·.uf) _ hUF
    exact ⟨hmedia, _, row, m, v, Or.inl ⟨htipo, rfl⟩, hrow, hrest⟩
  · obtain ⟨hmedia, row, m, v, htipo, hrow, hrest⟩ := principal "Bioma" (·.bioma) _ hBio
    exact ⟨hmedia, _, row, m, v, Or.inr ⟨htipo, rfl⟩, hrow, hrest⟩

end Queimadas

namespace Queimadas

set_option maxRecDepth 100000 in
set_option maxHeartbeats 1000000 in
/-- Witness for C5: four days of 1 hotspot plus a day with 2 in a single
state/biome make day 4 anomalous (mean 6/5, variance 1/5, and
`2 > 6/5 + 1.5·√(1/5)`); the emitted UF alert carries media 6/5,
aumento 66.7% and severity MÉDIO, and its baseline is positive. -/
theorem C5_baseline_positiva_witness :
    ((⟨"UF", "SP", 4, 2, 6 / 5, 667 / 10, "MÉDIO"⟩ : AlertaRegiao)
        ∈ gerar_alerta_por_regiao
          [⟨0, "SP", "AM"⟩, ⟨1, "SP", "AM"⟩, ⟨2, "SP", "AM"⟩, ⟨3, "SP", "AM"⟩,
            ⟨4, "SP", "AM"⟩, ⟨4, "SP", "AM"⟩] none) ∧
    0 < (⟨"UF", "SP", 4, 2, 6 / 5, 667 / 10, "MÉDIO"⟩ : AlertaRegiao).media :=
  ⟨by with_unfolding_all decide,
    (C5_baseline_positiva
      [⟨0, "SP", "AM"⟩, ⟨1, "SP", "AM"⟩, ⟨2, "SP", "AM"⟩, ⟨3, "SP", "AM"⟩,
        ⟨4, "SP", "AM"⟩, ⟨4, "SP", "AM"⟩] none
      ⟨"UF", "SP", 4, 2, 6 / 5, 667 / 10, "MÉDIO"⟩
      (by with_unfolding_all decide)).1⟩

end Queimadas

namespace Queimadas

/-- Filling with a non-null value leaves no nulls. -/
theorem preenche_sem_nulos {v : Celula} (hv : v ≠ Celula.nula) (cs : List Celula) :
    Celula.nula ∉ preenche v cs := by
  intro h
  rw [preenche] at h
  simp only [List.mem_map] at h
  obtain ⟨x, -, hx⟩ := h
  by_cases hxn : x = Celula.nula
  · rw [if_pos hxn] at hx
    exact hv hx
  · rw [if_neg hxn] at hx
    exact hxn hx

/-- Filling a column that has no nulls changes nothing. -/
theorem preenche_id {v : Celula} {cs : List Celula} (h : Celula.nula ∉ cs) :
    preenche v cs = cs := by
  induction cs with
  | nil => rfl
  | cons a t ih =>
    simp only [List.mem_cons, not_or] at h
    rw [preenche, List.map_cons, if_neg (fun e => h.1 e.symm)]
    congr 1
    exact ih h.2

/-- A column without nulls is returned unchanged. -/
theorem preencher_coluna_sem_nulos {c : Coluna} (h : Celula.nula ∉ c.celulas) :
    preencher_coluna c = c := by
  rw [preencher_coluna, if_pos h]

/-- A numeric column with nulls and at least one value is median-filled. -/
theorem preencher_coluna_mediana {c : Coluna} (h : Celula.nula ∈ c.celulas)
    (hn : c.numerica = true) {x : ℚ} {xs : List ℚ} (hv : valores_num c.celulas = x :: xs) :
    preencher_coluna c
      = { c with celulas := preenche (.num (mediana (x :: xs))) c.celulas } := by
  rw [preencher_coluna, if_neg (not_not_intro h), if_pos hn, hv]

/-- An all-null numeric column is returned unchanged (its median is NaN and
`fillna(NaN)` fills nothing). -/
theorem preencher_coluna_toda_nula {c : Coluna} (h : Celula.nula ∈ c.celulas)
    (hn : c.numerica = true) (hv : valores_num c.celulas = []) :
    preencher_coluna c = c := by
  rw [preencher_coluna, if_neg (not_not_intro h), if_pos hn, hv]

/-- The `data` column is skipped. -/
theorem preencher_coluna_data {c : Coluna} (h : Celula.nula ∈ c.celulas)
    (hn : c.numerica = false) (hd : c.nome = "data") : preencher_coluna c = c := by
  rw [preencher_coluna, if_neg (not_not_intro h), hn, if_neg (by simp), if_pos hd]

/-- The categorical columns are filled with `'Desconhecido'`. -/
theorem preencher_coluna_categorica {c : Coluna} (h : Celula.nula ∈ c.celulas)
    (hn : c.numerica = false) (hd : c.nome ≠ "data") (hcat : c.nome ∈ colunas_categoricas) :
    preencher_coluna c
      = { c with celulas := preenche (.texto "Desconhecido") c.celulas } := by
  rw [preencher_coluna, if_neg (not_not_intro h), hn, if_neg (by simp), if_neg hd,
    if_pos hcat]

/-- Every other non-numeric column is filled with the empty string. -/
theorem preencher_coluna_outras {c : Coluna} (h : Celula.nula ∈ c.celulas)
    (hn : c.numerica = false) (hd : c.nome ≠ "data") (hcat : c.nome ∉ colunas_categoricas) :
    preencher_coluna c = { c with celulas := preenche (.texto "") c.celulas } := by
  rw [preencher_coluna, if_neg (not_not_intro h), hn, if_neg (by simp), if_neg hd,
    if_neg hcat]

/-- Claim C10 (amended): after `preencher_nulos`, in each column — numeric
columns with at least one non-null value are median-filled and null-free;
ALL-NULL numeric columns keep their nulls (median = NaN); the `data` column
is untouched; the categorical columns are `'Desconhecido'`-filled and
null-free; every other non-date column is empty-string-filled and
null-free. -/
theorem C10_preenchimento_nulos (df : List Coluna) (c : Coluna) (hc : c ∈ df) :
    preencher_coluna c ∈ preencher_nulos df ∧
    (c.numerica = true → valores_num c.celulas ≠ [] →
      (preencher_coluna c).celulas
          = preenche (.num (mediana (valores_num c.celulas))) c.celulas ∧
        Celula.nula ∉ (preencher_coluna c).celulas) ∧
    (c.numerica = true → valores_num c.celulas = [] → preencher_coluna c = c) ∧
    (c.numerica = false → c.nome = "data" → preencher_coluna c = c) ∧
    (c.numerica = false → c.nome ≠ "data" → c.nome ∈ colunas_categoricas →
      (preencher_coluna c).celulas = preenche (.texto "Desconhecido") c.celulas ∧
        Celula.nula ∉ (preencher_coluna c).celulas) ∧
    (c.numerica = false → c.nome ≠ "data" → c.nome ∉ colunas_categoricas →
      (preencher_coluna c).celulas = preenche (.texto "") c.celulas ∧
        Celula.nula ∉ (preencher_coluna c).celulas) := by
  refine ⟨List.mem_map_of_mem preencher_coluna hc, ?_, ?_, ?_, ?_, ?_⟩
  · intro hn hv
    cases hvv : valores_num c.celulas with
    | nil => exact absurd hvv hv
    | cons x xs =>
      by_cases h0 : Celula.nula ∈ c.celulas
      · rw [preencher_coluna_mediana h0 hn hvv]
        exact ⟨rfl, preenche_sem_nulos (by simp) _⟩
      · rw [preencher_coluna_sem_nulos h0, preenche_id h0]
        exact ⟨rfl, h0⟩
  · intro hn hv
    by_cases h0 : Celula.nula ∈ c.celulas
    · exact preencher_coluna_toda_nula h0 hn hv
    · exact preencher_coluna_sem_nulos h0
  · intro hn hd
    by_cases h0 : Celula.nula ∈ c.celulas
    · exact preencher_coluna_data h0 hn hd
    · exact preencher_coluna_sem_nulos h0
  · intro hn hd hcat
    by_cases h0 : Celula.nula ∈ c.celulas
    · rw [preencher_coluna_categorica h0 hn hd hcat]
      exact ⟨rfl, preenche_sem_nulos (by simp) _⟩
    · rw [preencher_coluna_sem_nulos h0, preenche_id h0]
      exact ⟨rfl, h0⟩
  · intro hn hd hcat
    by_cases h0 : Celula.nula ∈ c.celulas
    · rw [preencher_coluna_outras h0 hn hd hcat]
      exact ⟨rfl, preenche_sem_nulos (by simp) _⟩
    · rw [preencher_coluna_sem_nulos h0, preenche_id h0]
      exact ⟨rfl, h0⟩

/-- Witness for C10: a `uf` column `[null, "SP"]` comes out null-free. -/
theorem C10_preenchimento_nulos_witness :
    ((⟨"uf", false, [Celula.nula, Celula.texto "SP"]⟩ : Coluna)
        ∈ [(⟨"uf", false, [Celula.nula, Celula.texto "SP"]⟩ : Coluna)]) ∧
    Celula.nula ∉ (preencher_coluna ⟨"uf", false, [Celula.nula, Celula.texto "SP"]⟩).celulas :=
  ⟨by decide,
    ((C10_preenchimento_nulos [⟨"uf", false, [Celula.nula, Celula.texto "SP"]⟩]
      ⟨"uf", false, [Celula.nula, Celula.texto "SP"]⟩
      (by decide)).2.2.2.2.1 rfl (by decide) (by decide)).2⟩

/-- Claim C10, counterexample: an all-null numeric column (here `frp`) still
contains nulls after the cleaning step, although it is not the `data`
column — its median is NaN and `fillna(NaN)` fills nothing. -/
theorem C10_cex_coluna_toda_nula :
    (preencher_nulos [⟨"frp", true, [Celula.nula]⟩]).map (·.celulas)
        = [[Celula.nula]] ∧
    ("frp" : String) ≠ "data" := by
  constructor <;> decide

end Queimadas
